import Mathlib

/-!
Shallow embedding of the go-track API's Location Update & Resolution Core
(`src/go-track-api/server.js`): the `POST /location` handler (direct path) and
`handleFlaggedRequest` (flag path). JavaScript numbers are modelled as `Rat`
(NaN/Infinity do not arise in the claims under study); optional JSON fields as
`Option`; JS truthiness of numbers (`0` is falsy) and of strings (`""` is
falsy) is modelled explicitly. Persistence-gateway effects are made explicit:
the handler result records the reads issued, the `storeRaw` writes issued, and
the record list handed to the deferred derived computation.
-/

/-- The inbound report's `location` object: `latitude`, `longitude`,
`accuracy`, each possibly absent. -/
structure ReportLocation where
  latitude : Option Rat
  longitude : Option Rat
  accuracy : Option Rat
  deriving DecidableEq, Repr

/-- One entry of the report's `devices` array: `{ id?, distance }`. -/
structure Device where
  id : Option String
  distance : Rat
  deriving DecidableEq, Repr

/-- The report's `devices` field as a JS value: a real array (the only shape
`_.isArray` accepts), null/undefined/absent, or some other non-array
collection whose lodash `_.map` iterates the given values. -/
inductive Devices where
  | arr (l : List Device)
  | nullish
  | collection (vs : List Device)
  deriving DecidableEq, Repr

/-- A stored flag document as the code reads it: `latitude`, `longitude` and
`accuracy` fields copied into the record base (never validated, so optional),
and the `multi` field used as the distance multiplier at line 314. The spec's
data model calls this field `multiplier`; stored documents are produced
outside this repository, so the embedding assumes it is present as the spec's
`FlagLocation` requires. -/
structure FlagLocation where
  latitude : Option Rat
  longitude : Option Rat
  accuracy : Option Rat
  multi : Rat
  deriving DecidableEq, Repr

/-- The inbound body of `POST /location`: `{ location?, devices, flag? }`. -/
structure Report where
  location : Option ReportLocation
  devices : Devices
  flag : Option String
  deriving DecidableEq, Repr

/-- The `location` object of a produced record: base latitude/longitude copied
from the resolved base (possibly absent there), plus the computed accuracy
(`_.defaultsDeep` keeps the computed accuracy over the base's own). -/
structure RecordLocation where
  latitude : Option Rat
  longitude : Option Rat
  accuracy : Rat
  deriving DecidableEq, Repr

/-- A persisted `LocationTimestamp` record: `{ id, timestamp, location }`. -/
structure LocationTimestamp where
  id : Option String
  timestamp : Int
  location : RecordLocation
  deriving DecidableEq, Repr

/-- Outcome of one handler result, distinguishing the responses the code
sends: 200 success, 400 "Location data is invalid", 400 "Devices data is
invalid", and the 500 "flag ... is empty" failure of the flag path. -/
inductive IngestResult where
  | ok
  | invalidLocation
  | invalidDevices
  | flagEmpty
  deriving DecidableEq, Repr

/-- The observable outcome of one `POST /location` request: the response
category, the gateway point reads issued (by key, in order), the `storeRaw`
writes issued (key and record, in list order), and the record list the code
schedules `calculateDerived` with (none when no success response was sent). -/
structure IngestOutcome where
  result : IngestResult
  reads : List String
  writes : List (String × LocationTimestamp)
  derived : Option (List LocationTimestamp)
  deriving DecidableEq, Repr

/-- JS truthiness of an optional string field: absent and `""` are falsy. -/
def truthyStr : Option String → Bool
  | none => false
  | some s => decide (s ≠ "")

/-- JS truthiness of an optional numeric field: absent and `0` are falsy. -/
def truthyNum : Option Rat → Bool
  | none => false
  | some v => decide (v ≠ 0)

/-- The `x || d` defaulting idiom on an optional numeric field: an absent or
zero value yields the default `d`. -/
def orDefault (v : Option Rat) (d : Rat) : Rat :=
  match v with
  | none => d
  | some x => if x = 0 then d else x

/-- Direct-path accuracy expression, line 273:
`baseAccuracy + device.distance`. -/
def directAccuracy (baseAccuracy distance : Rat) : Rat :=
  baseAccuracy + distance

/-- Flag-path accuracy expression, line 314:
`baseAccuracy + device.distance * location.multi`. -/
def flagAccuracy (baseAccuracy distance multi : Rat) : Rat :=
  baseAccuracy + distance * multi

/-- The record built for one device by the direct path's map body (lines
272-276): the device's id, the shared timestamp, the base latitude/longitude,
and the line-273 accuracy. `_.defaultsDeep` keeps the computed accuracy over
the base location's own `accuracy` field. -/
def directRecord (lat long : Option Rat) (baseAccuracy : Rat) (now : Int)
    (device : Device) : LocationTimestamp :=
  { id := device.id, timestamp := now,
    location := { latitude := lat, longitude := long,
                  accuracy := directAccuracy baseAccuracy device.distance } }

/-- The record built for one device by the flag path's map body (lines
313-317): as `directRecord` but with the line-314 accuracy using the flag
document's `multi` field. -/
def flagRecord (lat long : Option Rat) (baseAccuracy multi : Rat) (now : Int)
    (device : Device) : LocationTimestamp :=
  { id := device.id, timestamp := now,
    location := { latitude := lat, longitude := long,
                  accuracy := flagAccuracy baseAccuracy device.distance multi } }

/-- lodash `_.map` collection semantics for the `devices` field: arrays map
over elements, null/undefined yields the empty list, any other collection maps
over its values. -/
def lodashList : Devices → List Device
  | .arr l => l
  | .nullish => []
  | .collection vs => vs

/-- The per-record persistence step (lines 278-281 and 319-322): a record
whose `id` is falsy (absent or empty) is skipped, otherwise
`storeRaw(locationTimestamp.id, locationTimestamp)` is issued. -/
def writeOf (r : LocationTimestamp) : Option (String × LocationTimestamp) :=
  match r.id with
  | none => none
  | some s => if s = "" then none else some (s, r)

/-- `handleFlaggedRequest` (lines 297-344). Reads `flag/<name>` from the
gateway. When the document is absent the code sends the 500 "flag is empty"
response and falls through; the very next line then dereferences the nil
document and throws, the rejection is caught, and the second 500 cannot be
sent over the already-sent response — so the observable outcome is that
failure with zero writes and no derived-computation trigger. When the
document exists, one record per lodash-mapped device entry is built with the
flag document's base fields and the line-314 accuracy, truthy-id records are
written, and the full record list is scheduled for the derived computation. -/
def handleFlaggedRequest (store : String → Option FlagLocation) (flag : String)
    (devices : Devices) (now : Int) : IngestOutcome :=
  match store ("flag/" ++ flag) with
  | none =>
    { result := .flagEmpty, reads := ["flag/" ++ flag], writes := [], derived := none }
  | some location =>
    let baseAccuracy := orDefault location.accuracy 20
    let locationTimestamps := (lodashList devices).map
      (flagRecord location.latitude location.longitude baseAccuracy location.multi now)
    { result := .ok, reads := ["flag/" ++ flag],
      writes := locationTimestamps.filterMap writeOf,
      derived := some locationTimestamps }

/-- The `POST /location` handler (lines 250-295). A truthy `flag` diverts the
request to `handleFlaggedRequest` before any validation. Otherwise the
location check (absent object, or falsy longitude or latitude → 400
"Location data is invalid") runs, then the `_.isArray(devices)` check (→ 400
"Devices data is invalid"), then one record per device entry is built with
the line-273 accuracy, truthy-id records are written, and the full record
list is scheduled for the derived computation. -/
def postLocation (store : String → Option FlagLocation) (body : Report)
    (now : Int) : IngestOutcome :=
  if truthyStr body.flag then
    handleFlaggedRequest store (body.flag.getD "") body.devices now
  else
    match body.location with
    | none => { result := .invalidLocation, reads := [], writes := [], derived := none }
    | some location =>
      if !truthyNum location.longitude || !truthyNum location.latitude then
        { result := .invalidLocation, reads := [], writes := [], derived := none }
      else
        match body.devices with
        | .arr devices =>
          let baseAccuracy := orDefault location.accuracy 20
          let locationTimestamps := devices.map
            (directRecord location.latitude location.longitude baseAccuracy now)
          { result := .ok, reads := [],
            writes := locationTimestamps.filterMap writeOf,
            derived := some locationTimestamps }
        | _ => { result := .invalidDevices, reads := [], writes := [], derived := none }

/-!
Helper lemmas about the write fan-out shared by both paths.
-/

/-- A successful `writeOf` returns the record it was given. -/
lemma writeOf_eq_some {r : LocationTimestamp} {w : String × LocationTimestamp}
    (h : writeOf r = some w) : w.2 = r := by
  cases hr : r.id with
  | none =>
    have hw : writeOf r = none := by unfold writeOf; rw [hr]
    rw [hw] at h; exact absurd h (by simp)
  | some s =>
    have hw : writeOf r = if s = "" then none else some (s, r) := by
      unfold writeOf; rw [hr]
    rw [hw] at h
    by_cases hs : s = ""
    · rw [if_pos hs] at h; exact absurd h (by simp)
    · rw [if_neg hs] at h
      have := Option.some.inj h
      rw [← this]

/-- The number of writes issued over a record list built by mapping a
per-device builder that copies the device id equals the number of device
entries with a truthy (present, non-empty) id. -/
lemma length_writes_map (g : Device → LocationTimestamp) (hid : ∀ d, (g d).id = d.id)
    (ds : List Device) :
    ((ds.map g).filterMap writeOf).length = (ds.filter (fun d => truthyStr d.id)).length := by
  induction ds with
  | nil => rfl
  | cons d tl ih =>
    simp only [List.map_cons, List.filterMap_cons, List.filter_cons]
    cases hd : d.id with
    | none =>
      have hw : writeOf (g d) = none := by unfold writeOf; rw [hid d, hd]
      rw [hw]
      simpa [truthyStr] using ih
    | some s =>
      have hw : writeOf (g d) = if s = "" then none else some (s, g d) := by
        unfold writeOf; rw [hid d, hd]
      by_cases hs : s = ""
      · rw [hw, if_pos hs]
        simpa [truthyStr, hs] using ih
      · rw [hw, if_neg hs]
        simpa [truthyStr, hs] using ih

/-- Every write issued over such a record list carries a record built from
some device of the input list. -/
lemma mem_writes_map {g : Device → LocationTimestamp} {ds : List Device}
    {w : String × LocationTimestamp}
    (hw : w ∈ (ds.map g).filterMap writeOf) : ∃ d ∈ ds, w.2 = g d := by
  rcases List.mem_filterMap.mp hw with ⟨r, hr, hro⟩
  rcases List.mem_map.mp hr with ⟨d, hd, rfl⟩
  exact ⟨d, hd, writeOf_eq_some hro⟩

/-- Unfolding of `postLocation` on a truthy flag: the request is diverted to
`handleFlaggedRequest` before any validation. -/
lemma postLocation_flagged (store : String → Option FlagLocation) (body : Report)
    (now : Int) (hflag : truthyStr body.flag = true) :
    postLocation store body now
      = handleFlaggedRequest store (body.flag.getD "") body.devices now := by
  unfold postLocation
  rw [hflag]
  simp

/-- Unfolding of `handleFlaggedRequest` when the flag document exists. -/
lemma handleFlaggedRequest_found (store : String → Option FlagLocation)
    (flag : String) (devices : Devices) (now : Int) (fl : FlagLocation)
    (hstore : store ("flag/" ++ flag) = some fl) :
    handleFlaggedRequest store flag devices now
      = { result := .ok, reads := ["flag/" ++ flag],
          writes := ((lodashList devices).map
            (flagRecord fl.latitude fl.longitude (orDefault fl.accuracy 20) fl.multi
              now)).filterMap writeOf,
          derived := some ((lodashList devices).map
            (flagRecord fl.latitude fl.longitude (orDefault fl.accuracy 20) fl.multi
              now)) } := by
  unfold handleFlaggedRequest
  rw [hstore]

/-- Unfolding of `postLocation` on the direct path with a valid location and
an array of devices. -/
lemma postLocation_direct (store : String → Option FlagLocation) (body : Report)
    (l : ReportLocation) (ds : List Device) (now : Int)
    (hflag : truthyStr body.flag = false) (hloc : body.location = some l)
    (harr : body.devices = .arr ds)
    (hval : (!truthyNum l.longitude || !truthyNum l.latitude) = false) :
    postLocation store body now
      = { result := .ok, reads := [],
          writes := (ds.map
            (directRecord l.latitude l.longitude (orDefault l.accuracy 20)
              now)).filterMap writeOf,
          derived := some (ds.map
            (directRecord l.latitude l.longitude (orDefault l.accuracy 20) now)) } := by
  unfold postLocation
  rw [hflag, hloc, harr]
  simp [hval]

/-- C2: a flagged report naming a flag with no stored document is reported to
the caller as a failure (the 500 "flag is empty" response), with exactly one
gateway read (no retry), zero persistence writes, and no record handed to the
derived computation. -/
theorem missing_flag_fails (store : String → Option FlagLocation) (f : String)
    (loc : Option ReportLocation) (ds : Devices) (now : Int)
    (hf : f ≠ "") (hstore : store ("flag/" ++ f) = none) :
    postLocation store { location := loc, devices := ds, flag := some f } now
      = { result := .flagEmpty, reads := ["flag/" ++ f], writes := [],
          derived := none } := by
  have ht : truthyStr (Report.mk loc ds (some f)).flag = true := by
    simp [truthyStr, hf]
  rw [postLocation_flagged store _ now ht]
  unfold handleFlaggedRequest
  simp only [Option.getD_some]
  rw [hstore]

theorem missing_flag_fails_witness :
    "missing" ≠ "" ∧
    postLocation (fun _ => none)
      { location := none, devices := .arr [{ id := some "d1", distance := 1 }],
        flag := some "missing" } 42
      = { result := .flagEmpty, reads := ["flag/" ++ "missing"], writes := [],
          derived := none } :=
  ⟨by decide,
   missing_flag_fails (fun _ => none) "missing" none
     (.arr [{ id := some "d1", distance := 1 }]) 42 (by decide) rfl⟩

/-- C6: a report with neither a location carrying both latitude and longitude
nor a non-empty flag string is rejected with the "Location data is invalid"
response, with zero gateway reads and zero writes. -/
theorem invalid_report_rejected (store : String → Option FlagLocation)
    (body : Report) (now : Int)
    (hflag : truthyStr body.flag = false)
    (hloc : body.location = none
      ∨ ∃ l, body.location = some l ∧ (l.latitude = none ∨ l.longitude = none)) :
    postLocation store body now
      = { result := .invalidLocation, reads := [], writes := [],
          derived := none } := by
  unfold postLocation
  rw [if_neg (show ¬(truthyStr body.flag = true) by simp [hflag])]
  rcases hloc with h | ⟨l, hl, hcase⟩
  · rw [h]
  · have hval : (!truthyNum l.longitude || !truthyNum l.latitude) = true := by
      rcases hcase with h0 | h0
      · rw [h0]; simp [truthyNum]
      · rw [h0]; simp [truthyNum]
    rw [hl]
    simp [hval]

theorem invalid_report_rejected_witness :
    truthyStr (Report.mk none (.arr []) none).flag = false ∧
    postLocation (fun _ => none) (Report.mk none (.arr []) none) 0
      = { result := .invalidLocation, reads := [], writes := [],
          derived := none } :=
  ⟨rfl,
   invalid_report_rejected (fun _ => none) (Report.mk none (.arr []) none) 0 rfl
     (Or.inl rfl)⟩

/-- C8: for a fixed base accuracy and a fixed multiplier that is at least
zero, the computed accuracy is monotonically non-decreasing in the device
distance, on the direct path (line 273) and on the flag path (line 314). -/
theorem accuracy_monotone (base m d1 d2 : Rat) (hm : 0 ≤ m) (hd : d1 ≤ d2) :
    directAccuracy base d1 ≤ directAccuracy base d2
      ∧ flagAccuracy base d1 m ≤ flagAccuracy base d2 m := by
  unfold directAccuracy flagAccuracy
  exact ⟨add_le_add_left hd base,
         add_le_add_left (mul_le_mul_of_nonneg_right hd hm) base⟩

theorem accuracy_monotone_witness :
    (0 : Rat) ≤ 2 ∧ (3 : Rat) ≤ 4 ∧
      (directAccuracy 1 3 ≤ directAccuracy 1 4
        ∧ flagAccuracy 1 3 2 ≤ flagAccuracy 1 4 2) :=
  ⟨by norm_num, by norm_num, accuracy_monotone 1 2 3 4 (by norm_num) (by norm_num)⟩

/-- C9: a non-flagged report whose location carries latitude 0 or longitude 0
(both fields numerically present) is rejected as an invalid location: the JS
truthiness presence check treats the numeric value 0 like an absent field. -/
theorem zero_coordinate_rejected (store : String → Option FlagLocation)
    (body : Report) (now : Int) (l : ReportLocation) (a b : Rat)
    (hflag : truthyStr body.flag = false) (hloc : body.location = some l)
    (hlat : l.latitude = some a) (hlong : l.longitude = some b)
    (hzero : a = 0 ∨ b = 0) :
    postLocation store body now
      = { result := .invalidLocation, reads := [], writes := [],
          derived := none } := by
  unfold postLocation
  rw [if_neg (show ¬(truthyStr body.flag = true) by simp [hflag])]
  have hval : (!truthyNum l.longitude || !truthyNum l.latitude) = true := by
    rcases hzero with h0 | h0
    · rw [hlat, h0]; simp [truthyNum]
    · rw [hlong, h0]; simp [truthyNum]
  rw [hloc]
  simp [hval]

theorem zero_coordinate_rejected_witness :
    ((0 : Rat) = 0 ∨ (2 : Rat) = 0) ∧
    postLocation (fun _ => none)
      (Report.mk
        (some { latitude := some 0, longitude := some 2, accuracy := some 10 })
        (.arr [{ id := some "d1", distance := 5 }]) none) 7
      = { result := .invalidLocation, reads := [], writes := [],
          derived := none } :=
  ⟨Or.inl rfl,
   zero_coordinate_rejected (fun _ => none)
     (Report.mk
       (some { latitude := some 0, longitude := some 2, accuracy := some 10 })
       (.arr [{ id := some "d1", distance := 5 }]) none) 7
     { latitude := some 0, longitude := some 2, accuracy := some 10 } 0 2
     rfl rfl rfl rfl (Or.inl rfl)⟩

/-- C1: on the flag path every persisted record's accuracy equals the flag
document's (defaulted) base accuracy plus the device distance times the flag
document's stored multiplier field; in particular the zoneA scenario with
stored flag `{latitude 9, longitude 9, accuracy 5, multiplier 3}` and one
device `{id "d1", distance 2}` produces exactly the one record
`{id "d1", location {latitude 9, longitude 9, accuracy 11}, timestamp T}`. -/
theorem flag_path_accuracy (store : String → Option FlagLocation) (f : String)
    (ds : Devices) (now : Int) (fl : FlagLocation)
    (hstore : store ("flag/" ++ f) = some fl) :
    (∀ w ∈ (handleFlaggedRequest store f ds now).writes,
      ∃ d ∈ lodashList ds,
        w.2.location.accuracy
          = flagAccuracy (orDefault fl.accuracy 20) d.distance fl.multi)
    ∧ ∀ T : Int,
        postLocation
          (fun k => if k = "flag/zoneA" then
              some (FlagLocation.mk (some 9) (some 9) (some 5) 3) else none)
          (Report.mk none (.arr [Device.mk (some "d1") 2]) (some "zoneA")) T
          = { result := .ok, reads := ["flag/zoneA"],
              writes := [("d1", LocationTimestamp.mk (some "d1") T
                (RecordLocation.mk (some 9) (some 9) 11))],
              derived := some [LocationTimestamp.mk (some "d1") T
                (RecordLocation.mk (some 9) (some 9) 11)] } := by
  constructor
  · intro w hw
    rw [handleFlaggedRequest_found store f ds now fl hstore] at hw
    rcases mem_writes_map hw with ⟨d, hd, heq⟩
    refine ⟨d, hd, ?_⟩
    rw [heq]
    rfl
  · intro T
    simp [postLocation, handleFlaggedRequest, truthyStr, flagRecord, flagAccuracy,
      orDefault, writeOf, lodashList]
    norm_num

theorem flag_path_accuracy_witness :
    ((fun k => if k = "flag/zoneA" then
        some (FlagLocation.mk (some 9) (some 9) (some 5) 3) else none)
      ("flag/" ++ "zoneA") = some (FlagLocation.mk (some 9) (some 9) (some 5) 3))
    ∧ (("d1", LocationTimestamp.mk (some "d1") 42
          (RecordLocation.mk (some 9) (some 9) 11))
        ∈ (handleFlaggedRequest
            (fun k => if k = "flag/zoneA" then
              some (FlagLocation.mk (some 9) (some 9) (some 5) 3) else none)
            "zoneA" (.arr [Device.mk (some "d1") 2]) 42).writes)
    ∧ (∃ d ∈ lodashList (.arr [Device.mk (some "d1") 2]),
        (("d1", LocationTimestamp.mk (some "d1") 42
            (RecordLocation.mk (some 9) (some 9) 11)) :
          String × LocationTimestamp).2.location.accuracy
          = flagAccuracy
              (orDefault (FlagLocation.mk (some 9) (some 9) (some 5) 3).accuracy 20)
              d.distance (FlagLocation.mk (some 9) (some 9) (some 5) 3).multi) := by
  have hm : ("d1", LocationTimestamp.mk (some "d1") 42
        (RecordLocation.mk (some 9) (some 9) 11))
      ∈ (handleFlaggedRequest
          (fun k => if k = "flag/zoneA" then
            some (FlagLocation.mk (some 9) (some 9) (some 5) 3) else none)
          "zoneA" (.arr [Device.mk (some "d1") 2]) 42).writes := by
    simp [handleFlaggedRequest, flagRecord, flagAccuracy, orDefault, writeOf,
      lodashList]
    norm_num
  exact ⟨rfl, hm,
    (flag_path_accuracy
      (fun k => if k = "flag/zoneA" then
        some (FlagLocation.mk (some 9) (some 9) (some 5) 3) else none)
      "zoneA" (.arr [Device.mk (some "d1") 2]) 42
      (FlagLocation.mk (some 9) (some 9) (some 5) 3) rfl).1 _ hm⟩

/-- C7: on the direct path every persisted record's accuracy equals the
report location's (defaulted) base accuracy plus the device's distance; in
particular the scenario with location `{latitude 1, longitude 2, accuracy
10}` and one device `{id "d1", distance 5}` produces exactly the one record
`{id "d1", location {latitude 1, longitude 2, accuracy 15}, timestamp T}`. -/
theorem direct_path_accuracy (store : String → Option FlagLocation)
    (body : Report) (l : ReportLocation) (ds : List Device) (now : Int)
    (hflag : truthyStr body.flag = false) (hloc : body.location = some l)
    (harr : body.devices = .arr ds)
    (hval : (!truthyNum l.longitude || !truthyNum l.latitude) = false) :
    (∀ w ∈ (postLocation store body now).writes,
      ∃ d ∈ ds, w.2.location.accuracy
        = directAccuracy (orDefault l.accuracy 20) d.distance)
    ∧ ∀ T : Int,
        postLocation store
          (Report.mk
            (some (ReportLocation.mk (some 1) (some 2) (some 10)))
            (.arr [Device.mk (some "d1") 5]) none) T
          = { result := .ok, reads := [],
              writes := [("d1", LocationTimestamp.mk (some "d1") T
                (RecordLocation.mk (some 1) (some 2) 15))],
              derived := some [LocationTimestamp.mk (some "d1") T
                (RecordLocation.mk (some 1) (some 2) 15)] } := by
  constructor
  · intro w hw
    rw [postLocation_direct store body l ds now hflag hloc harr hval] at hw
    rcases mem_writes_map hw with ⟨d, hd, heq⟩
    refine ⟨d, hd, ?_⟩
    rw [heq]
    rfl
  · intro T
    simp [postLocation, truthyStr, truthyNum, directRecord, directAccuracy,
      orDefault, writeOf]
    norm_num

theorem direct_path_accuracy_witness :
    ((!truthyNum (some (2 : Rat)) || !truthyNum (some (1 : Rat))) = false)
    ∧ (("d1", LocationTimestamp.mk (some "d1") 42
          (RecordLocation.mk (some 1) (some 2) 15))
        ∈ (postLocation (fun _ => none)
            (Report.mk
              (some (ReportLocation.mk (some 1) (some 2) (some 10)))
              (.arr [Device.mk (some "d1") 5]) none) 42).writes)
    ∧ (∃ d ∈ [Device.mk (some "d1") 5],
        (("d1", LocationTimestamp.mk (some "d1") 42
            (RecordLocation.mk (some 1) (some 2) 15)) :
          String × LocationTimestamp).2.location.accuracy
          = directAccuracy
              (orDefault (ReportLocation.mk (some 1) (some 2) (some 10)).accuracy 20)
              d.distance) := by
  have hm : ("d1", LocationTimestamp.mk (some "d1") 42
        (RecordLocation.mk (some 1) (some 2) 15))
      ∈ (postLocation (fun _ => none)
          (Report.mk
            (some (ReportLocation.mk (some 1) (some 2) (some 10)))
            (.arr [Device.mk (some "d1") 5]) none) 42).writes := by
    simp [postLocation, truthyStr, truthyNum, directRecord, directAccuracy,
      orDefault, writeOf]
    norm_num
  exact ⟨by decide, hm,
    (direct_path_accuracy (fun _ => none)
      (Report.mk
        (some (ReportLocation.mk (some 1) (some 2) (some 10)))
        (.arr [Device.mk (some "d1") 5]) none)
      (ReportLocation.mk (some 1) (some 2) (some 10))
      [Device.mk (some "d1") 5] 42 rfl rfl rfl (by decide)).1 _ hm⟩

/-- C5: a report whose flag is set (a non-empty string) resolves its base
from the stored flag document only: the outcome is independent of the
caller-supplied location object (including its accuracy), and every persisted
record's base latitude/longitude are the flag document's. -/
theorem flag_ignores_caller_location (store : String → Option FlagLocation)
    (body : Report) (now : Int) (hflag : truthyStr body.flag = true) :
    (∀ loc1 loc2 : Option ReportLocation,
        postLocation store { body with location := loc1 } now
          = postLocation store { body with location := loc2 } now)
    ∧ ∀ fl, store ("flag/" ++ body.flag.getD "") = some fl →
        ∀ w ∈ (postLocation store body now).writes,
          w.2.location.latitude = fl.latitude
            ∧ w.2.location.longitude = fl.longitude := by
  constructor
  · intro loc1 loc2
    rw [postLocation_flagged store { body with location := loc1 } now hflag,
        postLocation_flagged store { body with location := loc2 } now hflag]
  · intro fl hstore w hw
    rw [postLocation_flagged store body now hflag,
        handleFlaggedRequest_found store (body.flag.getD "") body.devices now fl
          hstore] at hw
    rcases mem_writes_map hw with ⟨d, hd, heq⟩
    rw [heq]
    exact ⟨rfl, rfl⟩

theorem flag_ignores_caller_location_witness :
    truthyStr (Report.mk
        (some (ReportLocation.mk (some 1) (some 2) (some 10)))
        (.arr [Device.mk (some "d1") 4]) (some "zoneB")).flag = true
    ∧ (postLocation
        (fun k => if k = "flag/zoneB" then
          some (FlagLocation.mk (some 9) (some 9) none 2) else none)
        { Report.mk
            (some (ReportLocation.mk (some 1) (some 2) (some 10)))
            (.arr [Device.mk (some "d1") 4]) (some "zoneB") with
          location := some (ReportLocation.mk (some 7) (some 8) (some 100)) } 42
      = postLocation
        (fun k => if k = "flag/zoneB" then
          some (FlagLocation.mk (some 9) (some 9) none 2) else none)
        { Report.mk
            (some (ReportLocation.mk (some 1) (some 2) (some 10)))
            (.arr [Device.mk (some "d1") 4]) (some "zoneB") with
          location := none } 42) :=
  ⟨rfl,
   (flag_ignores_caller_location
      (fun k => if k = "flag/zoneB" then
        some (FlagLocation.mk (some 9) (some 9) none 2) else none)
      (Report.mk
        (some (ReportLocation.mk (some 1) (some 2) (some 10)))
        (.arr [Device.mk (some "d1") 4]) (some "zoneB")) 42 rfl).1
     (some (ReportLocation.mk (some 7) (some 8) (some 100))) none⟩

/-- C3: for every report that succeeds and whose devices field is an array of
m entries, exactly one write is issued per entry with a truthy (present,
non-empty) id, and all persisted records share the request's single timestamp
and the resolved base's latitude/longitude, differing only in their accuracy
(and id). Holds on both the direct and the flag path. -/
theorem records_per_valid_device (store : String → Option FlagLocation)
    (body : Report) (ds : List Device) (now : Int)
    (harr : body.devices = .arr ds)
    (hok : (postLocation store body now).result = .ok) :
    (postLocation store body now).writes.length
      = (ds.filter (fun d => truthyStr d.id)).length
    ∧ ∃ lat long, ∀ w ∈ (postLocation store body now).writes,
        w.2.timestamp = now ∧ w.2.location.latitude = lat
          ∧ w.2.location.longitude = long := by
  by_cases hflag : truthyStr body.flag = true
  · rw [postLocation_flagged store body now hflag] at hok ⊢
    cases hstore : store ("flag/" ++ body.flag.getD "") with
    | none =>
      exfalso
      have hfe : handleFlaggedRequest store (body.flag.getD "") body.devices now
          = { result := .flagEmpty, reads := ["flag/" ++ body.flag.getD ""],
              writes := [], derived := none } := by
        unfold handleFlaggedRequest; rw [hstore]
      rw [hfe] at hok
      simp at hok
    | some fl =>
      rw [handleFlaggedRequest_found store (body.flag.getD "") body.devices now fl
        hstore]
      constructor
      · simp only [harr, lodashList]
        exact length_writes_map _ (fun d => rfl) ds
      · refine ⟨fl.latitude, fl.longitude, ?_⟩
        intro w hw
        simp only [harr, lodashList] at hw
        rcases mem_writes_map hw with ⟨d, hd, heq⟩
        rw [heq]
        exact ⟨rfl, rfl, rfl⟩
  · have hflag' : truthyStr body.flag = false := by simpa using hflag
    cases hloc : body.location with
    | none =>
      exfalso
      have hrej : postLocation store body now
          = { result := .invalidLocation, reads := [], writes := [],
              derived := none } :=
        invalid_report_rejected store body now hflag' (Or.inl hloc)
      rw [hrej] at hok
      exact absurd hok (by decide)
    | some l =>
      by_cases hval : (!truthyNum l.longitude || !truthyNum l.latitude) = true
      · exfalso
        have hrej : postLocation store body now
            = { result := .invalidLocation, reads := [], writes := [],
                derived := none } := by
          unfold postLocation
          rw [if_neg (show ¬(truthyStr body.flag = true) by simp [hflag'])]
          rw [hloc]
          simp [hval]
        rw [hrej] at hok
        exact absurd hok (by decide)
      · have hval' : (!truthyNum l.longitude || !truthyNum l.latitude) = false := by
          simpa using hval
        rw [postLocation_direct store body l ds now hflag' hloc harr hval']
        constructor
        · exact length_writes_map _ (fun d => rfl) ds
        · refine ⟨l.latitude, l.longitude, ?_⟩
          intro w hw
          rcases mem_writes_map hw with ⟨d, hd, heq⟩
          rw [heq]
          exact ⟨rfl, rfl, rfl⟩

theorem records_per_valid_device_witness :
    ((Report.mk (some (ReportLocation.mk (some 1) (some 2) none))
        (.arr [Device.mk (some "d1") 5, Device.mk none 6, Device.mk (some "") 7])
        none).devices
      = .arr [Device.mk (some "d1") 5, Device.mk none 6, Device.mk (some "") 7])
    ∧ ((postLocation (fun _ => none)
        (Report.mk (some (ReportLocation.mk (some 1) (some 2) none))
          (.arr [Device.mk (some "d1") 5, Device.mk none 6, Device.mk (some "") 7])
          none) 7).result = .ok)
    ∧ ((postLocation (fun _ => none)
        (Report.mk (some (ReportLocation.mk (some 1) (some 2) none))
          (.arr [Device.mk (some "d1") 5, Device.mk none 6, Device.mk (some "") 7])
          none) 7).writes.length
      = ([Device.mk (some "d1") 5, Device.mk none 6,
          Device.mk (some "") 7].filter (fun d => truthyStr d.id)).length
      ∧ ∃ lat long, ∀ w ∈ (postLocation (fun _ => none)
          (Report.mk (some (ReportLocation.mk (some 1) (some 2) none))
            (.arr [Device.mk (some "d1") 5, Device.mk none 6, Device.mk (some "") 7])
            none) 7).writes,
          w.2.timestamp = 7 ∧ w.2.location.latitude = lat
            ∧ w.2.location.longitude = long) := by
  have hok : (postLocation (fun _ => none)
      (Report.mk (some (ReportLocation.mk (some 1) (some 2) none))
        (.arr [Device.mk (some "d1") 5, Device.mk none 6, Device.mk (some "") 7])
        none) 7).result = .ok := by decide
  exact ⟨rfl, hok,
    records_per_valid_device (fun _ => none)
      (Report.mk (some (ReportLocation.mk (some 1) (some 2) none))
        (.arr [Device.mk (some "d1") 5, Device.mk none 6, Device.mk (some "") 7])
        none)
      [Device.mk (some "d1") 5, Device.mk none 6, Device.mk (some "") 7] 7
      rfl hok⟩

/-- C4 counterexample: the claim "on both paths a non-sequence devices value
fails with InvalidDevices" is false on the flag path. This flagged request
whose devices value is null/undefined is accepted with a 200 (zero records),
because `handleFlaggedRequest` never runs the `_.isArray` check. -/
theorem flagged_nonarray_devices_accepted :
    (postLocation
      (fun k => if k = "flag/zoneC" then
        some (FlagLocation.mk (some 9) (some 9) (some 5) 3) else none)
      (Report.mk none .nullish (some "zoneC")) 0).result = .ok
    ∧ (postLocation
      (fun k => if k = "flag/zoneC" then
        some (FlagLocation.mk (some 9) (some 9) (some 5) 3) else none)
      (Report.mk none .nullish (some "zoneC")) 0).result ≠ .invalidDevices := by
  constructor
  · decide
  · decide

/-- C4 amended: only the direct path validates `devices`. With a non-truthy
flag and a valid location, a non-array devices value is rejected with
InvalidDevices, and an empty array is valid and yields zero records with a
success; the flag path performs no devices validation — with an existing flag
document, a null/undefined devices value is processed via lodash collection
semantics into zero records and the ingestion succeeds. -/
theorem devices_check_direct_only (store : String → Option FlagLocation)
    (body : Report) (l : ReportLocation) (now : Int)
    (hflag : truthyStr body.flag = false) (hloc : body.location = some l)
    (hval : (!truthyNum l.longitude || !truthyNum l.latitude) = false) :
    ((∀ ds, body.devices ≠ .arr ds) →
      postLocation store body now
        = { result := .invalidDevices, reads := [], writes := [],
            derived := none })
    ∧ (body.devices = .arr [] →
      postLocation store body now
        = { result := .ok, reads := [], writes := [], derived := some [] })
    ∧ ∀ f fl, f ≠ "" → store ("flag/" ++ f) = some fl →
        postLocation store (Report.mk body.location .nullish (some f)) now
          = { result := .ok, reads := ["flag/" ++ f], writes := [],
              derived := some [] } := by
  refine ⟨?_, ?_, ?_⟩
  · intro h
    unfold postLocation
    rw [if_neg (show ¬(truthyStr body.flag = true) by simp [hflag])]
    rw [hloc]
    simp only [hval, Bool.false_eq_true, if_false]
  · intro h
    unfold postLocation
    rw [if_neg (show ¬(truthyStr body.flag = true) by simp [hflag])]
    rw [hloc]
    simp [hval, h]
  · intro f fl hf hstore
    have ht : truthyStr (Report.mk body.location .nullish (some f)).flag = true := by
      simp [truthyStr, hf]
    rw [postLocation_flagged store (Report.mk body.location .nullish (some f)) now ht]
    rw [handleFlaggedRequest_found store ((some f).getD "") .nullish now fl hstore]
    simp [lodashList]

theorem devices_check_direct_only_witness :
    (truthyStr (Report.mk (some (ReportLocation.mk (some 1) (some 2) none))
        .nullish none).flag = false)
    ∧ ((!truthyNum (some (2 : Rat)) || !truthyNum (some (1 : Rat))) = false)
    ∧ postLocation (fun _ => none)
        (Report.mk (some (ReportLocation.mk (some 1) (some 2) none)) .nullish none) 0
        = { result := .invalidDevices, reads := [], writes := [],
            derived := none } := by
  refine ⟨rfl, by decide, ?_⟩
  exact (devices_check_direct_only (fun _ => none)
      (Report.mk (some (ReportLocation.mk (some 1) (some 2) none)) .nullish none)
      (ReportLocation.mk (some 1) (some 2) none) 0 rfl rfl (by decide)).1
    (fun ds h => Devices.noConfusion h)

/-- C10: an accuracy of 0 on the resolved base is treated identically to an
absent accuracy field, on both paths: the whole ingestion outcome is
unchanged when a zero accuracy is replaced by an absent one, and the `|| 20`
defaulting resolves both to the base accuracy 20. -/
theorem zero_accuracy_defaults (store : String → Option FlagLocation)
    (l : ReportLocation) (ds : Devices) (flg : Option String) (now : Int)
    (f : String) (fl : FlagLocation) :
    postLocation store
        (Report.mk (some { l with accuracy := some 0 }) ds flg) now
      = postLocation store
        (Report.mk (some { l with accuracy := none }) ds flg) now
    ∧ handleFlaggedRequest (fun _ => some { fl with accuracy := some 0 }) f ds now
      = handleFlaggedRequest (fun _ => some { fl with accuracy := none }) f ds now
    ∧ orDefault (some 0) 20 = orDefault none 20
    ∧ orDefault (some 0) 20 = 20 := by
  refine ⟨?_, ?_, ?_, ?_⟩
  · by_cases hf : truthyStr flg = true
    · simp [postLocation, hf]
    · have hf' : truthyStr flg = false := by simpa using hf
      simp [postLocation, hf', orDefault]
  · simp [handleFlaggedRequest, orDefault]
  · norm_num [orDefault]
  · norm_num [orDefault]
